import Mathlib

/-!
Verification of the risk-scoring and evidence-collection engine of the
CheckSol token-analysis service.

The TypeScript sources are shallowly embedded as follows:
- JS strings are Lean `String`; the JS helpers `trim`, `toUpperCase`,
  `startsWith` and `includes` are re-implemented over `String.data`
  (`List Char`) so that they compute inside the kernel.
- JS numbers that carry fractional values (percentages, liquidity in USD,
  account age in days, the current clock) are embedded as `Rat`; values that
  are always integers (timestamps, counts, raw token amounts, the score and
  the factor impacts) are `Int` or `Nat`.  BigInt arithmetic is `Nat`.
- Optional (possibly `undefined` or `null`) fields are `Option`.
- A JS `Map` is an insertion-ordered association list `List (String × α)`.
- Fallible external calls are embedded at their call boundary as
  `Except String α` values carried by an environment record `Env`; a thrown
  JS exception is the `.error` constructor with the thrown message.
- `Array.prototype.sort` with the descending comparator used by the route
  handler is a stable descending sort; it is embedded as a structurally
  recursive stable insertion sort, which is extensionally the same function.
-/

/-! ## Scorer data model (src/lib/risk-score.ts) -/

/-- Severity tier of the overall result: high risk, medium, low. -/
inductive RiskSeverity where
  | high
  | medium
  | low
deriving DecidableEq

/-- Severity tag of one factor. -/
inductive FactorSeverity where
  | critical
  | warning
  | positive
  | neutral
deriving DecidableEq

/-- Emission: fixed supply vs creator can mint more. -/
inductive EmissionStatus where
  | fixed
  | unlimited
deriving DecidableEq

/-- Migration stage reported by the market-data step. -/
inductive MigrationStatus where
  | bonding_curve
  | migrated
  | amm_only
  | unknown
deriving DecidableEq

/-- One scoring-rule verdict.  The numeric interpolation of the TS template
literals in `description` is elided; `id`, `label`, `severity` and `impact`
are embedded exactly. -/
structure RiskFactor where
  id : String
  label : String
  severity : FactorSeverity
  description : String
  impact : Int
deriving DecidableEq

/-- One top holder that received SOL or tokens from the creator. -/
structure CreatorConnectedHolder where
  owner : String
  percent : Rat
  firstReceivedAt : Option Int
deriving DecidableEq

/-- One entry of the top-holder list.  `amountRaw` is the bigint balance
(the TS code stores its decimal string rendering). -/
structure TopHolderEntry where
  owner : String
  amountRaw : Nat
  percent : Rat
deriving DecidableEq

/-- Top holders and concentration stats. -/
structure HolderStats where
  totalSupplyRaw : Nat
  totalHolders : Nat
  top10Percent : Rat
  topHolders : List TopHolderEntry
  creatorHoldPercent : Option Rat
  creatorConnectedHolders : Option (List CreatorConnectedHolder)
deriving DecidableEq

/-- One DEX pair for a token. -/
structure TokenPairInfo where
  quoteSymbol : String
  liquidityUsd : Rat
  dexId : Option String
  pairAddress : Option String
deriving DecidableEq

/-- Liquidity and trading activity. -/
structure TokenMarketStats where
  liquidityUsd : Option Rat
  pairs : Option (List TokenPairInfo)
  txCount24h : Option Nat
  buys24h : Option Nat
  sells24h : Option Nat
  uniqueTraders24h : Option Nat
  freshHolders1dPercent : Option Rat
  freshHolders7dPercent : Option Rat
  migrationStatus : Option MigrationStatus
  migrationLabel : Option String
deriving DecidableEq

/-- Identity and behaviour of the wallet that deployed the token. -/
structure CreatorAnalysis where
  creatorAddress : String
  creatorFirstTxTimestamp : Option Int
  accountAgeDays : Option Rat
  totalTxCount : Nat
  estimatedTokensCreated : Nat
  tokenName : Option String
  tokenSymbol : Option String
  canMintUnlimited : Option Bool
deriving DecidableEq

/-- Another token created by the same creator. -/
structure CreatorPreviousToken where
  mint : String
  symbol : Option String
  name : Option String
  liquidityUsd : Rat
  pairs : List TokenPairInfo
deriving DecidableEq

/-- The output of the risk engine. -/
structure RiskResult where
  score : Int
  severity : RiskSeverity
  factors : List RiskFactor
  creator : CreatorAnalysis
  mint : String
  holderStats : Option HolderStats
  emissionStatus : EmissionStatus
  creatorSold : Bool
  tokenMarket : Option TokenMarketStats
  creatorPreviousTokens : Option (List CreatorPreviousToken)
deriving DecidableEq

/-! ## String helpers (kernel-computable models of the JS string methods) -/

/-- Model of JS `String.prototype.trim`: drop whitespace from both ends. -/
def trimChars (l : List Char) : List Char :=
  ((l.dropWhile Char.isWhitespace).reverse.dropWhile Char.isWhitespace).reverse

/-- Model of JS `trim` on `String`. -/
def trimStr (s : String) : String := ⟨trimChars s.data⟩

/-- Model of JS `toUpperCase`. -/
def upperStr (s : String) : String := ⟨s.data.map Char.toUpper⟩

/-- Model of JS `startsWith`: the second string is a prefix of the first. -/
def strStartsWith (s p : String) : Bool := p.data.isPrefixOf s.data

/-- Auxiliary contiguous-subsequence test on character lists. -/
def containsSub (t sub : List Char) : Bool :=
  match t with
  | [] => sub.isEmpty
  | _ :: rest => sub.isPrefixOf t || containsSub rest sub

/-- Model of JS `includes`: the second string occurs inside the first. -/
def strContains (s sub : String) : Bool := containsSub s.data sub.data

/-! ## Chain-data model (src/lib/helius.ts) -/

/-- One native (SOL) transfer inside an enhanced transaction. -/
structure NativeTransfer where
  fromUserAccount : Option String
  toUserAccount : Option String
  amount : Option Int
deriving DecidableEq

/-- One token transfer inside an enhanced transaction. -/
structure TokenTransfer where
  fromUserAccount : Option String
  toUserAccount : Option String
  mint : Option String
deriving DecidableEq

/-- An enhanced-API transaction record.  `timestamp` is optional because the
handler defends against its absence with `?? 0` and `?? null`. -/
structure HeliusTransaction where
  signature : String
  timestamp : Option Int
  feePayer : String
  type : Option String
  source : Option String
  description : Option String
  nativeTransfers : Option (List NativeTransfer)
  tokenTransfers : Option (List TokenTransfer)
deriving DecidableEq

/-- The transaction shape consumed by `computeRiskScore`
(`Array of (type?, timestamp?)`). -/
structure ScoreTx where
  type : Option String
  timestamp : Option Int
deriving DecidableEq

/-- TS structural subtyping: a `HeliusTransaction` used where a `ScoreTx`
is expected. -/
def toScoreTx (tx : HeliusTransaction) : ScoreTx :=
  { type := tx.type, timestamp := tx.timestamp }

/-- One token account returned by getTokenAccounts.  The raw amount string is
parsed with `BigInt`; it is embedded directly as `Nat`. -/
structure TokenAccountHolder where
  owner : String
  amount : Nat
deriving DecidableEq

/-! ## Association-list model of a JS Map -/

/-- First binding of a key, if any (JS `Map.get`). -/
def alistGet? {α : Type} (m : List (String × α)) (k : String) : Option α :=
  (m.find? (fun p => p.1 == k)).map (fun p => p.2)

/-- JS `Map.has`. -/
def alistHas {α : Type} (m : List (String × α)) (k : String) : Bool :=
  (alistGet? m k).isSome

/-- JS `Map.set` for a key that may be absent: insert at the end, else leave
the map unchanged (used for the `if (!map.has(k)) map.set(k, v)` idiom). -/
def addIfAbsent (m : List (String × Int)) (k : String) (v : Int) :
    List (String × Int) :=
  if alistHas m k then m else m ++ [(k, v)]

/-- JS `Map.set` accumulating into a possibly existing binding
(`map.set(k, (map.get(k) ?? 0) + v)`): update in place, else append. -/
def mapAdd (m : List (String × Nat)) (k : String) (v : Nat) :
    List (String × Nat) :=
  if m.any (fun p => p.1 == k) then
    m.map (fun p => if p.1 == k then (p.1, p.2 + v) else p)
  else m ++ [(k, v)]

/-! ## getWalletsReceivedFromCreator (src/lib/helius.ts, lines 82-109) -/

/-- Handle one transfer record: record the recipient of an outgoing transfer
from the creator, keeping the first-seen timestamp. -/
def recordTransfer (creator : String) (ts : Int) (m : List (String × Int))
    (fromAcct toAcct : Option String) : List (String × Int) :=
  if fromAcct == some creator then
    match toAcct with
    | some toA => if toA = "" then m else addIfAbsent m toA ts
    | none => m
  else m

/-- From the creator transaction history, collect all wallet addresses that
received SOL or tokens from the creator, with the timestamp of the first
transfer encountered in sample order. -/
def getWalletsReceivedFromCreator (creatorTxs : List HeliusTransaction)
    (creatorAddress : String) : List (String × Int) :=
  creatorTxs.foldl
    (fun m tx =>
      let ts := tx.timestamp.getD 0
      let m1 := (tx.nativeTransfers.getD []).foldl
        (fun acc t => recordTransfer creatorAddress ts acc t.fromUserAccount t.toUserAccount) m
      (tx.tokenTransfers.getD []).foldl
        (fun acc t => recordTransfer creatorAddress ts acc t.fromUserAccount t.toUserAccount) m1)
    []

/-! ## Address validation (src/lib/utils.ts) -/

/-- One character of the base58 alphabet used by the validation regex. -/
def isBase58Char (c : Char) : Bool :=
  decide (('1' ≤ c ∧ c ≤ '9') ∨ ('A' ≤ c ∧ c ≤ 'H') ∨ ('J' ≤ c ∧ c ≤ 'N') ∨
    ('P' ≤ c ∧ c ≤ 'Z') ∨ ('a' ≤ c ∧ c ≤ 'k') ∨ ('m' ≤ c ∧ c ≤ 'z'))

/-- Validation of a Solana address: 32 to 44 base58 characters after trim. -/
def isValidSolanaAddress (value : String) : Bool :=
  if value = "" then false
  else
    let trimmed := trimStr value
    decide (32 ≤ trimmed.data.length) && decide (trimmed.data.length ≤ 44) &&
      trimmed.data.all isBase58Char

/-! ## Creation-event classifiers -/

/-- The label taxonomy used by the Scorer (risk-score.ts).  A JS `Set`
iterated in insertion order; only membership matters here. -/
def TOKEN_CREATION_TYPES : List String :=
  ["CREATE", "CREATE_MINT_METADATA", "CREATE_MASTER_EDITION", "TOKEN_MINT",
   "MINT_TO", "INITIALIZE", "INITIALIZE_MINT", "NFT_MINT", "COMPRESSED_NFT_MINT"]

/-- The label taxonomy used by the Collector (the API route). -/
def CREATION_TYPES : List String :=
  ["CREATE", "CREATE_MINT_METADATA", "TOKEN_MINT", "MINT_TO", "INITIALIZE",
   "INITIALIZE_MINT", "NFT_MINT", "COMPRESSED_NFT_MINT"]

/-- Scorer-side creation-event classifier: taxonomy exact/prefix match, then
substring fallback on MINT, CREATE, INITIALIZE. -/
def txLooksLikeTokenCreation (tx : ScoreTx) : Bool :=
  let t := upperStr (tx.type.getD "")
  TOKEN_CREATION_TYPES.any (fun p => t == p || strStartsWith t (p ++ "_")) ||
    (strContains t "MINT" || strContains t "CREATE" || strContains t "INITIALIZE")

/-- Collector-side creation-event classifier (the API route). -/
def isCreationTx (tx : HeliusTransaction) : Bool :=
  let t := upperStr (tx.type.getD "")
  CREATION_TYPES.any (fun p => t == p || strStartsWith t (p ++ "_")) ||
    (strContains t "MINT" || strContains t "CREATE" || strContains t "INITIALIZE")

/-! ## The scoring rules (computeRiskScore, src/lib/risk-score.ts)

Each if-block of the source both shifts the running score and pushes one
factor; a firing is embedded as a `RuleFire` holding the score delta written
at the `score -=` / `score +=` site together with the pushed factor record.
The final score of the source is the once-clamped `50 + sum of deltas`. -/

/-- One firing of a scoring rule. -/
structure RuleFire where
  delta : Int
  factor : RiskFactor
deriving DecidableEq

/-- Rule 1: emission, unlimited vs fixed supply. -/
def rule1Emission (canMintUnlimited : Option Bool) : Option RuleFire :=
  match canMintUnlimited with
  | some true => some ⟨-20,
      { id := "unlimited_mint", label := "Unlimited supply (creator can mint more)",
        severity := .critical,
        description := "Mint authority is not revoked. The deployer can mint more tokens at any time and crash the price.",
        impact := -20 }⟩
  | some false => some ⟨10,
      { id := "fixed_supply", label := "Fixed supply (mint authority revoked)",
        severity := .positive,
        description := "Creator revoked mint authority. No new tokens can be minted.",
        impact := 10 }⟩
  | none => none

/-- Rule 2: creator share of supply. -/
def rule2CreatorHold (holderStats : Option HolderStats) : Option RuleFire :=
  match holderStats with
  | none => none
  | some h =>
    match h.creatorHoldPercent with
    | none => none
    | some p =>
      if p < 1 then some ⟨-18,
        { id := "creator_sold", label := "Creator sold (or dumped) tokens",
          severity := .critical,
          description := "Creator share of supply is now below one percent. Creator selling is a strong red flag.",
          impact := -18 }⟩
      else if 10 ≤ p then some ⟨8,
        { id := "creator_holds", label := "Creator still holds a share",
          severity := .positive,
          description := "Creator holds a share of supply and did not dump after launch.",
          impact := 8 }⟩
      else none

/-- Rule 3: number of creation events in the sample. -/
def rule3TokensCreated (createdCount : Nat) : Option RuleFire :=
  if 10 ≤ createdCount then some ⟨-25,
    { id := "serial_creator", label := "Many tokens from same creator",
      severity := .critical,
      description := "Creator has launched many tokens. Often a sign of serial scam.",
      impact := -25 }⟩
  else if 5 ≤ createdCount then some ⟨-15,
    { id := "multiple_tokens", label := "Multiple tokens from creator",
      severity := .warning,
      description := "Creator has launched several tokens. Check history.",
      impact := -15 }⟩
  else if createdCount ≤ 1 then some ⟨10,
    { id := "first_or_few", label := "First or one of few tokens",
      severity := .positive,
      description := "Creator has few token launches.",
      impact := 10 }⟩
  else none

/-- Rule 4: creator wallet age. -/
def rule4AccountAge (accountAgeDays : Option Rat) : Option RuleFire :=
  match accountAgeDays with
  | none => none
  | some ageDays =>
    if ageDays < 1 then some ⟨-20,
      { id := "brand_new_account", label := "Brand new wallet",
        severity := .critical,
        description := "Creator wallet is less than 1 day old. Typical for scams.",
        impact := -20 }⟩
    else if ageDays < 7 then some ⟨-10,
      { id := "new_account", label := "New wallet",
        severity := .warning,
        description := "Creator wallet is under a week old. Proceed with caution.",
        impact := -10 }⟩
    else if 90 ≤ ageDays then some ⟨10,
      { id := "established_account", label := "Established wallet",
        severity := .positive,
        description := "Creator wallet has been active for a long time.",
        impact := 10 }⟩
    else none

/-- Rule 5: very high sampled activity. -/
def rule5Activity (totalTxCount : Nat) : Option RuleFire :=
  if 500 < totalTxCount then some ⟨-5,
    { id := "very_high_activity", label := "Very high activity",
      severity := .warning,
      description := "Very high tx count. May indicate automated activity.",
      impact := -5 }⟩
  else none

/-- Rule 6: holder count. -/
def rule6HolderCount (holderStats : Option HolderStats) : Option RuleFire :=
  match holderStats with
  | none => none
  | some h =>
    if 0 < h.totalHolders then
      if h.totalHolders ≤ 2 then some ⟨-18,
        { id := "very_few_holders", label := "Very few holders",
          severity := .critical,
          description := "Only one or two holders. Typical sign of scam or illiquid token.",
          impact := -18 }⟩
      else if h.totalHolders ≤ 5 then some ⟨-10,
        { id := "few_holders", label := "Few holders",
          severity := .warning,
          description := "Very small holder set. High concentration and manipulation risk.",
          impact := -10 }⟩
      else if h.totalHolders ≤ 15 then some ⟨-4,
        { id := "low_holder_count", label := "Low holder count",
          severity := .warning,
          description := "Few holders. Moderate risk.",
          impact := -4 }⟩
      else none
    else none

/-- Rule 7: top-10 concentration. -/
def rule7Concentration (holderStats : Option HolderStats) : Option RuleFire :=
  match holderStats with
  | none => none
  | some h =>
    if 0 ≤ h.top10Percent then
      if 80 ≤ h.top10Percent then some ⟨-15,
        { id := "extreme_concentration", label := "Extreme top-holder concentration",
          severity := .critical,
          description := "Top 10 wallets hold a very large share of supply. High dump and manipulation risk.",
          impact := -15 }⟩
      else if 50 ≤ h.top10Percent then some ⟨-8,
        { id := "high_concentration", label := "High top-holder concentration",
          severity := .warning,
          description := "Top 10 wallets hold a large share of supply. Dump risk if whales sell.",
          impact := -8 }⟩
      else if h.top10Percent ≤ 30 ∧ 100 ≤ h.totalHolders then some ⟨5,
        { id := "distributed_holders", label := "Distributed ownership",
          severity := .positive,
          description := "Top 10 hold a moderate share and there are many holders.",
          impact := 5 }⟩
      else none
    else none

/-- Rule 8: top holders connected to the creator. -/
def rule8ConnectedHolders (holderStats : Option HolderStats) : Option RuleFire :=
  let connected : List CreatorConnectedHolder :=
    match holderStats with
    | some h => h.creatorConnectedHolders.getD []
    | none => []
  if 0 < connected.length then
    let totalTop10ConnectedPercent : Rat := (connected.map (fun h => h.percent)).sum
    if 3 ≤ connected.length ∨ 20 ≤ totalTop10ConnectedPercent then some ⟨-14,
      { id := "creator_connected_holders", label := "Top holders linked to creator",
        severity := .critical,
        description := "Several top holders received SOL or tokens from the creator. Possible sybil or coordination.",
        impact := -14 }⟩
    else some ⟨-6,
      { id := "creator_connected_holders", label := "Some top holders linked to creator",
        severity := .warning,
        description := "Some top holders received transfers from the creator. Check for coordination.",
        impact := -6 }⟩
  else none

/-- Rule 9: liquidity in USD. -/
def rule9Liquidity (tokenMarket : Option TokenMarketStats) : Option RuleFire :=
  match tokenMarket with
  | none => none
  | some m =>
    match m.liquidityUsd with
    | none => none
    | some liq =>
      if 0 ≤ liq then
        if liq < 2000 then some ⟨-12,
          { id := "low_liquidity", label := "Very low liquidity",
            severity := .critical,
            description := "Pool liquidity is very low. High rug and liquidity pull risk.",
            impact := -12 }⟩
        else if liq < 10000 then some ⟨-5,
          { id := "moderate_liquidity", label := "Low liquidity",
            severity := .warning,
            description := "Pool liquidity is low. Caution on large trades.",
            impact := -5 }⟩
        else if 50000 ≤ liq then some ⟨5,
          { id := "good_liquidity", label := "Decent liquidity",
            severity := .positive,
            description := "Pool liquidity is reasonable for trading.",
            impact := 5 }⟩
        else none
      else none

/-- Rule 10: share of fresh holders. -/
def rule10FreshHolders (tokenMarket : Option TokenMarketStats) : Option RuleFire :=
  match tokenMarket with
  | none => none
  | some m =>
    if m.freshHolders1dPercent.isSome || m.freshHolders7dPercent.isSome then
      let fresh1d := m.freshHolders1dPercent.getD 0
      let fresh7d := m.freshHolders7dPercent.getD 0
      if 50 < fresh1d ∨ 70 < fresh7d then some ⟨-5,
        { id := "very_fresh_holders", label := "Very high share of new holders",
          severity := .warning,
          description := "Most holders are very recent. Possible wash trading or pump.",
          impact := -5 }⟩
      else none
    else none

/-- Score delta contributed by an optional rule firing. -/
def fireDelta (o : Option RuleFire) : Int :=
  match o with
  | some f => f.delta
  | none => 0

/-- Factor id carried by an optional rule firing. -/
def fireId (o : Option RuleFire) : Option String :=
  o.map (fun f => f.factor.id)

/-- The ten rule blocks of computeRiskScore evaluated in source order; each
block contributes at most one firing. -/
def ruleFires (canMintUnlimited : Option Bool) (createdCount : Nat)
    (accountAgeDays : Option Rat) (totalTxCount : Nat)
    (holderStats : Option HolderStats)
    (tokenMarket : Option TokenMarketStats) : List RuleFire :=
  (rule1Emission canMintUnlimited).toList ++
  (rule2CreatorHold holderStats).toList ++
  (rule3TokensCreated createdCount).toList ++
  (rule4AccountAge accountAgeDays).toList ++
  (rule5Activity totalTxCount).toList ++
  (rule6HolderCount holderStats).toList ++
  (rule7Concentration holderStats).toList ++
  (rule8ConnectedHolders holderStats).toList ++
  (rule9Liquidity tokenMarket).toList ++
  (rule10FreshHolders tokenMarket).toList

/-- The risk engine: evidence in, score plus severity plus ordered factor
list out (computeRiskScore of src/lib/risk-score.ts). -/
def computeRiskScore (mint : String) (creatorAnalysis : CreatorAnalysis)
    (creatorTxs : List ScoreTx) (holderStats : Option HolderStats)
    (tokenMarket : Option TokenMarketStats) : RiskResult :=
  let emissionStatus : EmissionStatus :=
    if creatorAnalysis.canMintUnlimited = some true then .unlimited else .fixed
  let creatorSold : Bool :=
    match holderStats with
    | some h =>
      match h.creatorHoldPercent with
      | some p => decide (p < 1)
      | none => false
    | none => false
  let createdCount := (creatorTxs.filter txLooksLikeTokenCreation).length
  let creatorAnalysis2 :=
    { creatorAnalysis with estimatedTokensCreated := max createdCount 1 }
  let fires := ruleFires creatorAnalysis.canMintUnlimited createdCount
    creatorAnalysis.accountAgeDays creatorAnalysis.totalTxCount holderStats tokenMarket
  let score : Int := max 0 (min 100 (50 + (fires.map RuleFire.delta).sum))
  { score := score
    severity := if score ≤ 30 then .high else if score ≤ 60 then .medium else .low
    factors := fires.map RuleFire.factor
    creator := creatorAnalysis2
    mint := mint
    holderStats := holderStats
    emissionStatus := emissionStatus
    creatorSold := creatorSold
    tokenMarket := tokenMarket
    creatorPreviousTokens := none }

/-- The severity tier table as written in the specification: low for score
at least 61, medium for 31 to 60, high for at most 30. -/
def severitySpec (score : Int) : RiskSeverity :=
  if 61 ≤ score then .low else if 31 ≤ score then .medium else .high

/-! ## Holder aggregation (route handler, lines 251-290 of the API route) -/

/-- Stable insert for the descending comparator used by the handler
(`(a, b) => b[1] > a[1] ? 1 : b[1] < a[1] ? -1 : 0`): an element is placed
before the first entry whose balance is not larger, so equal balances keep
their first-seen order. -/
def insertDescByAmount (p : String × Nat) :
    List (String × Nat) → List (String × Nat)
  | [] => [p]
  | q :: rest =>
    if q.2 ≤ p.2 then p :: q :: rest else q :: insertDescByAmount p rest

/-- Stable descending sort by balance, extensionally the JS stable
`Array.prototype.sort` under that comparator. -/
def sortDescByAmount : List (String × Nat) → List (String × Nat)
  | [] => []
  | p :: rest => insertDescByAmount p (sortDescByAmount rest)

/-- Aggregate balances by owner, skipping empty owners, with exact integer
summation (the `byOwner` map of the handler). -/
def aggregateByOwner (accounts : List TokenAccountHolder) :
    List (String × Nat) :=
  accounts.foldl
    (fun m a => if a.owner = "" then m else mapAdd m a.owner a.amount) []

/-- Positive balances ranked by descending balance (the `sorted` array of
the handler). -/
def sortedHolders (accounts : List TokenAccountHolder) :
    List (String × Nat) :=
  sortDescByAmount ((aggregateByOwner accounts).filter (fun p => 0 < p.2))

/-- Share of supply in basis points: the bigint expression
`amount * 10000n / totalSupplyRaw` of the handler (the displayed percent is
this value divided by 100). -/
def percentBp (amount totalSupply : Nat) : Nat := amount * 10000 / totalSupply

/-- The holder-distribution block of the handler: aggregate, rank, compute
shares, and cross-reference the creator-funded wallets against the top 10.
Returns none when no positive balance was observed. -/
def buildHolderStats (accounts : List TokenAccountHolder)
    (creatorAddress : String) (creatorTxsDesc : List HeliusTransaction) :
    Option HolderStats :=
  let byOwner := aggregateByOwner accounts
  let sorted := sortedHolders accounts
  let totalSupplyRaw := (sorted.map (fun p => p.2)).sum
  if 0 < totalSupplyRaw ∧ 0 < sorted.length then
    let top10 := sorted.take 10
    let top10Sum := (top10.map (fun p => p.2)).sum
    let top10Percent : Rat := ((percentBp top10Sum totalSupplyRaw : Nat) : Rat) / 100
    let creatorBalance := (alistGet? byOwner creatorAddress).getD 0
    let creatorHoldPercent : Rat := ((percentBp creatorBalance totalSupplyRaw : Nat) : Rat) / 100
    let topHoldersList : List TopHolderEntry := top10.map (fun p =>
      { owner := p.1, amountRaw := p.2,
        percent := ((percentBp p.2 totalSupplyRaw : Nat) : Rat) / 100 })
    let receivedFromCreator := getWalletsReceivedFromCreator creatorTxsDesc creatorAddress
    let creatorConnectedHolders : List CreatorConnectedHolder :=
      (topHoldersList.filter (fun h => alistHas receivedFromCreator h.owner)).map
        (fun h => { owner := h.owner, percent := h.percent,
                    firstReceivedAt := alistGet? receivedFromCreator h.owner })
    some { totalSupplyRaw := totalSupplyRaw
           totalHolders := sorted.length
           top10Percent := top10Percent
           topHolders := topHoldersList
           creatorHoldPercent := some creatorHoldPercent
           creatorConnectedHolders :=
             if 0 < creatorConnectedHolders.length then some creatorConnectedHolders
             else none }
  else none

/-! ## Mint-authority fallback (getMintAuthoritySet, src/lib/helius.ts) -/

/-- SPL Token mint account: byte 10 is the mint-authority option
(0 = revoked, 1 = set). -/
def MINT_AUTHORITY_OPTION_OFFSET : Nat := 10

/-- The getAccountInfo RPC response as observed by getMintAuthoritySet: an
RPC-level error flag and the base64 account blob already decoded to bytes
(absent when `result.value.data` is missing or empty, both falsy in JS). -/
structure MintAuthRpcResponse where
  hasError : Bool
  dataBytes : Option (List Nat)
deriving DecidableEq

/-- getMintAuthoritySet: true if the mint authority is set, false if
revoked, none when the RPC reports an error or returns no or short data.
A network-level failure of the underlying fetch is re-thrown (`.error`). -/
def getMintAuthoritySet (fetchRes : Except String MintAuthRpcResponse) :
    Except String (Option Bool) :=
  match fetchRes with
  | .error e => .error e
  | .ok r =>
    if r.hasError then .ok none
    else
      match r.dataBytes with
      | none => .ok none
      | some bytes =>
        if bytes.length < MINT_AUTHORITY_OPTION_OFFSET + 1 then .ok none
        else .ok (some (bytes.getD MINT_AUTHORITY_OPTION_OFFSET 0 == 1))

/-! ## Asset metadata (getAsset boundary) -/

/-- Name and symbol inside the asset content metadata. -/
structure AssetMeta where
  name : Option String
  symbol : Option String
deriving DecidableEq

/-- The content wrapper of a DAS asset. -/
structure AssetContent where
  metadata : Option AssetMeta
deriving DecidableEq

/-- Token info of a DAS asset; `mint_authority` is a string when set and
absent when null or undefined. -/
structure AssetTokenInfo where
  supply : Option String
  decimals : Option Int
  mint_authority : Option String
deriving DecidableEq

/-- A DAS asset as consumed by the route handler (the unused `id` and
`creators` fields are omitted). -/
structure HeliusAsset where
  content : Option AssetContent
  token_info : Option AssetTokenInfo
deriving DecidableEq

/-- The mint-authority decoding applied to `token_info.mint_authority`:
`typeof ma === "string" && ma.length > 0 && ma !== "null"`. -/
def decodeMintAuthority (ma : Option String) : Bool :=
  match ma with
  | some s => decide (s ≠ "" ∧ s ≠ "null")
  | none => false

/-! ## Sibling-token collection (the API route) -/

/-- Collect other mint addresses appearing as the transferred asset of
classified creation events, deduplicated in first-seen order, capped. -/
def getOtherMintsFromCreatorTxs (txs : List HeliusTransaction)
    (currentMint : String) (limit : Nat) : List String :=
  let mints := txs.foldl
    (fun acc tx =>
      if isCreationTx tx then
        (tx.tokenTransfers.getD []).foldl
          (fun acc2 t =>
            match t.mint with
            | some m0 =>
              let m := trimStr m0
              if m ≠ "" ∧ m ≠ currentMint ∧ isValidSolanaAddress m ∧ ¬ acc2.contains m
              then acc2 ++ [m] else acc2
            | none => acc2)
          acc
      else acc)
    []
  mints.take limit

/-! ## Market data and the request environment -/

/-- The value returned by fetchDexScreenerData.  That function catches every
failure internally and returns an empty record, so it is embedded at its
return boundary as a total value. -/
structure DexData where
  liquidityUsd : Option Rat
  txCount24h : Option Nat
  buys24h : Option Nat
  sells24h : Option Nat
  pairs : Option (List TokenPairInfo)
  migrationStatus : Option MigrationStatus
  migrationLabel : Option String
deriving DecidableEq

/-- The empty DexScreener record. -/
def emptyDexData : DexData :=
  { liquidityUsd := none, txCount24h := none, buys24h := none, sells24h := none,
    pairs := none, migrationStatus := none, migrationLabel := none }

/-- One execution environment of the GET handler: the request inputs, the
clock, and the observed outcome of every external call, each fallible call
as `Except` (an `.error` is a thrown JS exception carrying its message;
key-configuration throws raised inside a client helper are folded into that
call's `.error` case). -/
structure Env where
  mintParam : Option String
  apiKeyEnv : Option String
  nowSec : Rat
  assetRes : Except String (Option HeliusAsset)
  mintAuthFetch : Except String MintAuthRpcResponse
  mintTxAscRes : Except String (List HeliusTransaction)
  creatorAscRes : Except String (List HeliusTransaction)
  creatorDescRes : Except String (List HeliusTransaction)
  tokenAccountsRes : Except String (List TokenAccountHolder)
  dexData : DexData
  uniqueTraders24h : Option Nat
  siblingDex : String → DexData
  siblingAsset : String → Except String (Option HeliusAsset)

/-- The handler response: a JSON risk result, or an error JSON with an HTTP
status code. -/
inductive ApiResponse where
  | success (result : RiskResult)
  | failure (status : Nat) (message : String)
deriving DecidableEq

/-- The caught-getAsset step of the handler: token name, symbol and the
mint-authority verdict from structured metadata; a thrown getAsset is
swallowed and every output stays absent. -/
def assetStep (res : Except String (Option HeliusAsset)) :
    Option Bool × Option String × Option String :=
  match res with
  | .error _ => (none, none, none)
  | .ok none => (none, none, none)
  | .ok (some a) =>
    let meta := match a.content with
      | some c => c.metadata
      | none => none
    let tokenName := match meta with
      | some m => m.name
      | none => none
    let tokenSymbol := match meta with
      | some m => m.symbol
      | none => none
    let canMint := match a.token_info with
      | some ti => some (decodeMintAuthority ti.mint_authority)
      | none => none
    (canMint, tokenName, tokenSymbol)

/-- Mint-authority determination of the handler: prefer the structured
asset metadata; only when it yields nothing is the raw-account fallback
consulted (whose network-level failure propagates). -/
def mintAuthorityStep (env : Env) : Except String (Option Bool) :=
  match (assetStep env.assetRes).1 with
  | some b => .ok (some b)
  | none => getMintAuthoritySet env.mintAuthFetch

/-- The not-found message of the handler. -/
def creatorNotFoundMsg : String :=
  "Could not determine token creator (no transaction history for this address)"

/-- One sibling-token record of the handler loop: market data from the
(never-throwing) DexScreener fetch, name and symbol from a caught getAsset. -/
def buildPreviousToken (om : String) (dex : DexData)
    (assetRes : Except String (Option HeliusAsset)) : CreatorPreviousToken :=
  let meta := match assetRes with
    | .ok (some a) =>
      match a.content with
      | some c => c.metadata
      | none => none
    | _ => none
  { mint := om
    symbol := match meta with
      | some m => m.symbol
      | none => none
    name := match meta with
      | some m => m.name
      | none => none
    liquidityUsd := dex.liquidityUsd.getD 0
    pairs := dex.pairs.getD [] }

/-- The body of the try block of the GET handler, after the api-key
presence check.  `.error` is an uncaught exception reaching the outer
catch; an early error response (the 404) is a normal `.ok .failure`.
The two creator-history fetches run under `Promise.all` with no local
catch; a rejection of either one is re-thrown (when both fail the model
propagates the older-first fetch error). -/
def analyzeBody (env : Env) (mint : String) : Except String ApiResponse :=
  let info := assetStep env.assetRes
  match mintAuthorityStep env with
  | .error e => .error e
  | .ok canMintUnlimited =>
    match env.mintTxAscRes with
    | .error e => .error e
    | .ok mintTxsAsc =>
      match mintTxsAsc.head? with
      | none => .ok (.failure 404 creatorNotFoundMsg)
      | some creationTx =>
        if creationTx.feePayer = "" then .ok (.failure 404 creatorNotFoundMsg)
        else
          match env.creatorAscRes with
          | .error e => .error e
          | .ok creatorTxsAsc =>
            match env.creatorDescRes with
            | .error e => .error e
            | .ok creatorTxsDesc =>
              let creatorAddress := creationTx.feePayer
              let creatorFirstTxTimestamp := creationTx.timestamp
              let accountFirstTimestamp :=
                match creatorTxsAsc.head? with
                | some t =>
                  match t.timestamp with
                  | some v => some v
                  | none => creatorFirstTxTimestamp
                | none => creatorFirstTxTimestamp
              let accountAgeDays : Option Rat :=
                match accountFirstTimestamp with
                | some ts => some ((env.nowSec - (ts : Rat)) / 86400)
                | none => none
              let creatorAnalysis : CreatorAnalysis :=
                { creatorAddress := creatorAddress
                  creatorFirstTxTimestamp :=
                    match creatorFirstTxTimestamp with
                    | some v => some v
                    | none => accountFirstTimestamp
                  accountAgeDays := accountAgeDays
                  totalTxCount := creatorTxsDesc.length
                  estimatedTokensCreated := 0
                  tokenName := info.2.1
                  tokenSymbol := info.2.2
                  canMintUnlimited := canMintUnlimited }
              let holderStats : Option HolderStats :=
                match env.tokenAccountsRes with
                | .error _ => none
                | .ok accounts => buildHolderStats accounts creatorAddress creatorTxsDesc
              let tokenMarket : Option TokenMarketStats :=
                if env.dexData.liquidityUsd.isSome || env.dexData.txCount24h.isSome ||
                   env.dexData.pairs.isSome || env.dexData.migrationStatus.isSome ||
                   env.uniqueTraders24h.isSome then
                  some { liquidityUsd := env.dexData.liquidityUsd
                         pairs := env.dexData.pairs
                         txCount24h := env.dexData.txCount24h
                         buys24h := env.dexData.buys24h
                         sells24h := env.dexData.sells24h
                         uniqueTraders24h := env.uniqueTraders24h
                         freshHolders1dPercent := none
                         freshHolders7dPercent := none
                         migrationStatus := env.dexData.migrationStatus
                         migrationLabel := env.dexData.migrationLabel }
                else none
              let otherMints := getOtherMintsFromCreatorTxs creatorTxsDesc mint 8
              let creatorPreviousTokens := otherMints.map
                (fun om => buildPreviousToken om (env.siblingDex om) (env.siblingAsset om))
              let result := computeRiskScore mint creatorAnalysis
                (creatorTxsDesc.map toScoreTx) holderStats tokenMarket
              let result2 := { result with
                creatorPreviousTokens :=
                  if 0 < creatorPreviousTokens.length then some creatorPreviousTokens
                  else none }
              .ok (.success result2)

/-- The mint string of the request: `searchParams.get("mint")?.trim() ?? ""`. -/
def requestMint (env : Env) : String :=
  match env.mintParam with
  | some s => trimStr s
  | none => ""

/-- True when the HELIUS_API_KEY environment value is absent or blank. -/
def heliusKeyMissing (k : Option String) : Bool :=
  match k with
  | none => true
  | some s => trimStr s = ""

/-- The status classification of the outer catch. -/
def classifyStatus (message : String) : Nat :=
  if strContains message "Invalid API key" || strContains message "invalid api key" ||
     strContains message "invalid api key provided" then 401
  else if strContains message "HELIUS_API_KEY" || strContains message "not set" ||
          strContains message "rate" then 503
  else 500

/-- The GET handler: input validation, configuration check, then the try
body with its outer catch mapping an uncaught exception to an error
response. -/
def analyzeGET (env : Env) : ApiResponse :=
  let mint := requestMint env
  if mint = "" then .failure 400 "Missing mint parameter (token mint address)"
  else if ¬ isValidSolanaAddress mint then
    .failure 400 "Invalid Solana address (expected 32-44 base58 characters)"
  else if heliusKeyMissing env.apiKeyEnv then
    .failure 503 "Service not configured: HELIUS_API_KEY is missing"
  else
    match analyzeBody env mint with
    | .ok resp => resp
    | .error message => .failure (classifyStatus message) message

/-! ## Spec-side helper definitions used in claim statements -/

/-- Exact integer total received by one owner across all accounts, the
merge the specification asks for. -/
def ownerTotal (o : String) (accounts : List TokenAccountHolder) : Nat :=
  ((accounts.filter (fun a => a.owner == o)).map (fun a => a.amount)).sum

/-- The total supply the handler computes: sum of the ranked positive
balances. -/
def totalSupplyOf (accounts : List TokenAccountHolder) : Nat :=
  ((sortedHolders accounts).map (fun p => p.2)).sum

/-- Sum of every distinct holder share in basis points, with each share
computed by the handler formula `percentBp`. -/
def percentBpSum (accounts : List TokenAccountHolder) : Nat :=
  ((sortedHolders accounts).map
    (fun p => percentBp p.2 (totalSupplyOf accounts))).sum

/-! ## Concrete inputs used by witnesses and counterexamples -/

/-- A syntactically valid mint address (32 base58 characters). -/
def mintW : String := "11111111111111111111111111111111"

/-- The creation transaction of the analysed mint in the concrete runs. -/
def txCreation : HeliusTransaction :=
  { signature := "sig-creation", timestamp := some 1690000000,
    feePayer := "CreatorAddr", type := some "CREATE", source := none,
    description := none, nativeTransfers := none, tokenTransfers := none }

/-- An execution in which every external call behaves and yields minimal
data. -/
def envBase : Env :=
  { mintParam := some mintW
    apiKeyEnv := some "helius-key"
    nowSec := 1700000000
    assetRes := .ok none
    mintAuthFetch := .ok { hasError := false, dataBytes := none }
    mintTxAscRes := .ok [txCreation]
    creatorAscRes := .ok []
    creatorDescRes := .ok []
    tokenAccountsRes := .ok []
    dexData := emptyDexData
    uniqueTraders24h := none
    siblingDex := fun _ => emptyDexData
    siblingAsset := fun _ => .ok none }

/-- Same execution except that the recent-history (newest-first) creator
fetch of the Promise.all pair is rejected upstream. -/
def envDescFails : Env :=
  { envBase with creatorDescRes := .error "Helius API error 500: upstream" }

/-- Same execution except that the holder-distribution call throws. -/
def envHoldersFail : Env :=
  { envBase with tokenAccountsRes := .error "Helius getTokenAccounts error 500: boom" }

/-- Same execution except that the raw mint-account fetch fails at the
network level (the fetch itself rejects). -/
def envMintAuthThrows : Env :=
  { envBase with mintAuthFetch := .error "fetch failed" }

/-- A raw mint-account blob of 11 bytes whose byte 10 is 1 (authority set). -/
def mintAuthorityBytes : List Nat := [1, 0, 0, 0, 0, 0, 0, 0, 0, 0, 1]

/-- Same execution except that the raw mint-account fetch returns a decodable
blob with the authority flag set. -/
def envMintAuthSet : Env :=
  { envBase with mintAuthFetch := .ok { hasError := false, dataBytes := some mintAuthorityBytes } }

/-- Same execution except that the mint has no transaction history at all. -/
def envNoHistory : Env :=
  { envBase with mintTxAscRes := .ok [] }

/-- Newest-first creator sample for the first-received-timestamp run: the
same recipient receives from the creator at time 200 and earlier at 100. -/
def txTransferNew : HeliusTransaction :=
  { signature := "sig-new", timestamp := some 200, feePayer := "CreatorC",
    type := some "TRANSFER", source := none, description := none,
    nativeTransfers := some [{ fromUserAccount := some "CreatorC",
                               toUserAccount := some "WalletW", amount := some 1 }],
    tokenTransfers := none }

/-- The earlier transfer to the same recipient. -/
def txTransferOld : HeliusTransaction :=
  { signature := "sig-old", timestamp := some 100, feePayer := "CreatorC",
    type := some "TRANSFER", source := none, description := none,
    nativeTransfers := some [{ fromUserAccount := some "CreatorC",
                               toUserAccount := some "WalletW", amount := some 2 }],
    tokenTransfers := none }

/-- Token accounts with a duplicated owner, for the aggregation witness. -/
def accountsW : List TokenAccountHolder :=
  [{ owner := "A", amount := 3 }, { owner := "A", amount := 2 },
   { owner := "B", amount := 5 }]

/-- A two-element scorer sample. -/
def txsPermA : List ScoreTx :=
  [{ type := some "CREATE", timestamp := none },
   { type := some "SWAP", timestamp := none }]

/-- The same sample reordered. -/
def txsPermB : List ScoreTx :=
  [{ type := some "SWAP", timestamp := none },
   { type := some "CREATE", timestamp := none }]

/-- A creator analysis with no optional evidence. -/
def caPlain : CreatorAnalysis :=
  { creatorAddress := "c", creatorFirstTxTimestamp := none,
    accountAgeDays := none, totalTxCount := 0, estimatedTokensCreated := 0,
    tokenName := none, tokenSymbol := none, canMintUnlimited := none }

/-- A scorer transaction with an ordinary type tag. -/
def stxPlain : ScoreTx := { type := some "TRANSFER", timestamp := none }

/-- The matching collector transaction. -/
def htxPlain : HeliusTransaction :=
  { signature := "s", timestamp := none, feePayer := "f",
    type := some "TRANSFER", source := none, description := none,
    nativeTransfers := none, tokenTransfers := none }

/-- Scenario A creator evidence: mint authority active, everything else
arbitrary. -/
def scenarioACreator (creatorAddress : String) (cft : Option Int)
    (age : Option Rat) (ttc etc0 : Nat) (tn tsym : Option String) :
    CreatorAnalysis :=
  { creatorAddress := creatorAddress, creatorFirstTxTimestamp := cft,
    accountAgeDays := age, totalTxCount := ttc,
    estimatedTokensCreated := etc0, tokenName := tn, tokenSymbol := tsym,
    canMintUnlimited := some true }

/-- Scenario A holder evidence: creator holds 0 percent, 2 holders, top-10
concentration 100 percent, everything else arbitrary. -/
def scenarioAHolders (tsr : Nat) (thl : List TopHolderEntry)
    (cch : Option (List CreatorConnectedHolder)) : HolderStats :=
  { totalSupplyRaw := tsr, totalHolders := 2, top10Percent := 100,
    topHolders := thl, creatorHoldPercent := some 0,
    creatorConnectedHolders := cch }

/-- Scenario A market evidence: 500 USD of liquidity, everything else
arbitrary. -/
def scenarioAMarket (prs : Option (List TokenPairInfo))
    (tc24 b24 s24 ut : Option Nat) (f1 f7 : Option Rat)
    (ms : Option MigrationStatus) (ml : Option String) : TokenMarketStats :=
  { liquidityUsd := some 500, pairs := prs, txCount24h := tc24,
    buys24h := b24, sells24h := s24, uniqueTraders24h := ut,
    freshHolders1dPercent := f1, freshHolders7dPercent := f7,
    migrationStatus := ms, migrationLabel := ml }

/-! ## Helper lemmas -/

/-- The delta sum of an optional firing as a list sum. -/
theorem sum_map_delta_toList (o : Option RuleFire) :
    ((o.toList).map RuleFire.delta).sum = fireDelta o := by
  cases o <;> simp [fireDelta]

/-- The delta sum of the ten rule blocks, one summand per block. -/
theorem ruleFires_delta_sum (cm : Option Bool) (cc : Nat) (ad : Option Rat)
    (tt : Nat) (hs : Option HolderStats) (tm : Option TokenMarketStats) :
    ((ruleFires cm cc ad tt hs tm).map RuleFire.delta).sum =
      fireDelta (rule1Emission cm) + fireDelta (rule2CreatorHold hs) +
      fireDelta (rule3TokensCreated cc) + fireDelta (rule4AccountAge ad) +
      fireDelta (rule5Activity tt) + fireDelta (rule6HolderCount hs) +
      fireDelta (rule7Concentration hs) + fireDelta (rule8ConnectedHolders hs) +
      fireDelta (rule9Liquidity tm) + fireDelta (rule10FreshHolders tm) := by
  simp only [ruleFires, List.map_append, List.sum_append, sum_map_delta_toList]
  try ring

/-- Rule 1 firings carry their impact as their delta. -/
theorem rule1_delta_eq_impact {c : Option Bool} {f : RuleFire}
    (h : rule1Emission c = some f) : f.delta = f.factor.impact := by
  unfold rule1Emission at h
  rcases c with _ | b
  · exact Option.noConfusion h
  · cases b <;> (simp only [Option.some.injEq] at h; subst h; rfl)

/-- Rule 2 firings carry their impact as their delta. -/
theorem rule2_delta_eq_impact {hs : Option HolderStats} {f : RuleFire}
    (h : rule2CreatorHold hs = some f) : f.delta = f.factor.impact := by
  unfold rule2CreatorHold at h
  rcases hs with _ | hh
  · exact Option.noConfusion h
  · rcases hh with ⟨tsr, th, tp, thl, chp, cch⟩
    rcases chp with _ | p
    · exact Option.noConfusion h
    · simp only at h
      split_ifs at h <;>
        first
          | exact Option.noConfusion h
          | (simp only [Option.some.injEq] at h; subst h; rfl)

/-- Rule 3 firings carry their impact as their delta. -/
theorem rule3_delta_eq_impact {c : Nat} {f : RuleFire}
    (h : rule3TokensCreated c = some f) : f.delta = f.factor.impact := by
  unfold rule3TokensCreated at h
  split_ifs at h <;>
    first
      | exact Option.noConfusion h
      | (simp only [Option.some.injEq] at h; subst h; rfl)

/-- Rule 4 firings carry their impact as their delta. -/
theorem rule4_delta_eq_impact {a : Option Rat} {f : RuleFire}
    (h : rule4AccountAge a = some f) : f.delta = f.factor.impact := by
  unfold rule4AccountAge at h
  rcases a with _ | q
  · exact Option.noConfusion h
  · simp only at h
    split_ifs at h <;>
      first
        | exact Option.noConfusion h
        | (simp only [Option.some.injEq] at h; subst h; rfl)

/-- Rule 5 firings carry their impact as their delta. -/
theorem rule5_delta_eq_impact {t : Nat} {f : RuleFire}
    (h : rule5Activity t = some f) : f.delta = f.factor.impact := by
  unfold rule5Activity at h
  split_ifs at h <;>
    first
      | exact Option.noConfusion h
      | (simp only [Option.some.injEq] at h; subst h; rfl)

/-- Rule 6 firings carry their impact as their delta. -/
theorem rule6_delta_eq_impact {hs : Option HolderStats} {f : RuleFire}
    (h : rule6HolderCount hs = some f) : f.delta = f.factor.impact := by
  unfold rule6HolderCount at h
  rcases hs with _ | hh
  · exact Option.noConfusion h
  · simp only at h
    split_ifs at h <;>
      first
        | exact Option.noConfusion h
        | (simp only [Option.some.injEq] at h; subst h; rfl)

/-- Rule 7 firings carry their impact as their delta. -/
theorem rule7_delta_eq_impact {hs : Option HolderStats} {f : RuleFire}
    (h : rule7Concentration hs = some f) : f.delta = f.factor.impact := by
  unfold rule7Concentration at h
  rcases hs with _ | hh
  · exact Option.noConfusion h
  · simp only at h
    split_ifs at h <;>
      first
        | exact Option.noConfusion h
        | (simp only [Option.some.injEq] at h; subst h; rfl)

/-- Rule 8 firings carry their impact as their delta. -/
theorem rule8_delta_eq_impact {hs : Option HolderStats} {f : RuleFire}
    (h : rule8ConnectedHolders hs = some f) : f.delta = f.factor.impact := by
  unfold rule8ConnectedHolders at h
  simp only at h
  split_ifs at h <;>
    first
      | exact Option.noConfusion h
      | (simp only [Option.some.injEq] at h; subst h; rfl)

/-- Rule 9 firings carry their impact as their delta. -/
theorem rule9_delta_eq_impact {tm : Option TokenMarketStats} {f : RuleFire}
    (h : rule9Liquidity tm = some f) : f.delta = f.factor.impact := by
  unfold rule9Liquidity at h
  rcases tm with _ | mm
  · exact Option.noConfusion h
  · simp only at h
    rcases hl : mm.liquidityUsd with _ | L
    · rw [hl] at h; exact Option.noConfusion h
    · rw [hl] at h
      simp only at h
      split_ifs at h <;>
        first
          | exact Option.noConfusion h
          | (simp only [Option.some.injEq] at h; subst h; rfl)

/-- Rule 10 firings carry their impact as their delta. -/
theorem rule10_delta_eq_impact {tm : Option TokenMarketStats} {f : RuleFire}
    (h : rule10FreshHolders tm = some f) : f.delta = f.factor.impact := by
  unfold rule10FreshHolders at h
  rcases tm with _ | mm
  · exact Option.noConfusion h
  · simp only at h
    split_ifs at h <;>
      first
        | exact Option.noConfusion h
        | (simp only [Option.some.injEq] at h; subst h; rfl)

/-- Every firing emitted by the ten rule blocks carries its impact as its
delta. -/
theorem mem_ruleFires_impact_eq_delta {cm : Option Bool} {cc : Nat}
    {ad : Option Rat} {tt : Nat} {hs : Option HolderStats}
    {tm : Option TokenMarketStats} {fi : RuleFire}
    (hfi : fi ∈ ruleFires cm cc ad tt hs tm) : fi.factor.impact = fi.delta := by
  simp only [ruleFires, List.mem_append, or_assoc] at hfi
  rcases hfi with h | h | h | h | h | h | h | h | h | h
  · exact (rule1_delta_eq_impact (Option.mem_def.mp (Option.mem_toList.mp h))).symm
  · exact (rule2_delta_eq_impact (Option.mem_def.mp (Option.mem_toList.mp h))).symm
  · exact (rule3_delta_eq_impact (Option.mem_def.mp (Option.mem_toList.mp h))).symm
  · exact (rule4_delta_eq_impact (Option.mem_def.mp (Option.mem_toList.mp h))).symm
  · exact (rule5_delta_eq_impact (Option.mem_def.mp (Option.mem_toList.mp h))).symm
  · exact (rule6_delta_eq_impact (Option.mem_def.mp (Option.mem_toList.mp h))).symm
  · exact (rule7_delta_eq_impact (Option.mem_def.mp (Option.mem_toList.mp h))).symm
  · exact (rule8_delta_eq_impact (Option.mem_def.mp (Option.mem_toList.mp h))).symm
  · exact (rule9_delta_eq_impact (Option.mem_def.mp (Option.mem_toList.mp h))).symm
  · exact (rule10_delta_eq_impact (Option.mem_def.mp (Option.mem_toList.mp h))).symm

/-! ## Claim C1 -/

/-- C1: for every input to computeRiskScore the returned score lies in
the interval from 0 to 100 and the returned severity follows the tier
table of the specification exactly, including the boundaries 30, 31, 60
and 61. -/
theorem computeRiskScore_score_in_range_and_severity_table
    (mint : String) (ca : CreatorAnalysis) (txs : List ScoreTx)
    (hs : Option HolderStats) (tm : Option TokenMarketStats) :
    (0 ≤ (computeRiskScore mint ca txs hs tm).score ∧
      (computeRiskScore mint ca txs hs tm).score ≤ 100) ∧
    (computeRiskScore mint ca txs hs tm).severity =
      severitySpec ((computeRiskScore mint ca txs hs tm).score) := by
  simp only [computeRiskScore]
  refine ⟨⟨le_max_left _ _, max_le (by norm_num) (min_le_left _ _)⟩, ?_⟩
  unfold severitySpec
  split_ifs <;> first | rfl | omega

/-! ## Claim C10 -/

/-- C10: for every input, the score equals the clamp to the interval from
0 to 100 of 50 plus the sum of the impact fields of the emitted factors;
every firing rule contributes exactly its factor impact and silent rules
contribute nothing. -/
theorem computeRiskScore_score_eq_clamped_base_plus_impacts
    (mint : String) (ca : CreatorAnalysis) (txs : List ScoreTx)
    (hs : Option HolderStats) (tm : Option TokenMarketStats) :
    (computeRiskScore mint ca txs hs tm).score =
      max 0 (min 100 (50 +
        (((computeRiskScore mint ca txs hs tm).factors.map RiskFactor.impact).sum))) := by
  simp only [computeRiskScore]
  rw [List.map_map]
  have hcongr : ∀ fi ∈ ruleFires ca.canMintUnlimited
      (txs.filter txLooksLikeTokenCreation).length ca.accountAgeDays
      ca.totalTxCount hs tm,
      (RiskFactor.impact ∘ RuleFire.factor) fi = RuleFire.delta fi := by
    intro fi hfi
    exact mem_ruleFires_impact_eq_delta hfi
  rw [List.map_congr_left hcongr]

/-- Prefix transitivity for the startsWith model. -/
theorem strStartsWith_trans {s p q : String}
    (hsp : strStartsWith s p = true) (hpq : strStartsWith p q = true) :
    strStartsWith s q = true := by
  unfold strStartsWith at hsp hpq ⊢
  rw [List.isPrefixOf_iff_prefix] at hsp hpq ⊢
  exact hpq.trans hsp

/-! ## Claim C5 -/

/-- C5: the creation-event classifier of the Scorer and the classifier of
the Collector agree on every transaction type tag, absent tags included;
the extra taxonomy entry CREATE_MASTER_EDITION of the Scorer is subsumed by
the CREATE prefix rule present in both. -/
theorem txLooksLikeTokenCreation_eq_isCreationTx
    (stx : ScoreTx) (htx : HeliusTransaction) (h : stx.type = htx.type) :
    txLooksLikeTokenCreation stx = isCreationTx htx := by
  simp only [txLooksLikeTokenCreation, isCreationTx, TOKEN_CREATION_TYPES,
    CREATION_TYPES]
  rw [h]
  set t := upperStr (htx.type.getD "") with ht
  simp only [List.any_cons, List.any_nil, Bool.or_false]
  by_cases hc : strStartsWith t "CREATE_" = true
  · simp [hc]
  · have hc0 : strStartsWith t "CREATE_" = false := eq_false_of_ne_true hc
    have h1 : (t == "CREATE_MASTER_EDITION") = false := by
      cases h1e : (t == "CREATE_MASTER_EDITION")
      · rfl
      · exfalso
        have hteq : t = "CREATE_MASTER_EDITION" := eq_of_beq h1e
        rw [hteq] at hc0
        have htrue : strStartsWith "CREATE_MASTER_EDITION" "CREATE_" = true := by decide
        rw [htrue] at hc0
        exact Bool.noConfusion hc0
    have h2 : strStartsWith t "CREATE_MASTER_EDITION_" = false := by
      cases h2e : strStartsWith t "CREATE_MASTER_EDITION_"
      · rfl
      · exfalso
        have h3 : strStartsWith t "CREATE_" = true :=
          strStartsWith_trans h2e (by decide)
        rw [h3] at hc0
        exact Bool.noConfusion hc0
    simp [h1, h2, hc0]

/-- Witness for C5 at a concrete ordinary type tag. -/
theorem txLooksLikeTokenCreation_eq_isCreationTx_witness :
    stxPlain.type = htxPlain.type ∧
      txLooksLikeTokenCreation stxPlain = isCreationTx htxPlain :=
  ⟨rfl, txLooksLikeTokenCreation_eq_isCreationTx stxPlain htxPlain rfl⟩

/-! ## Claim C6 -/

/-- C6: reordering the transaction sample does not change the
estimatedTokensCreated value computed by computeRiskScore, and classifying
an already classified sample again yields the same count. -/
theorem estimatedTokensCreated_perm_invariant_and_idempotent
    (mint : String) (ca : CreatorAnalysis) (txs1 txs2 : List ScoreTx)
    (hs : Option HolderStats) (tm : Option TokenMarketStats)
    (hperm : txs1.Perm txs2) :
    (computeRiskScore mint ca txs1 hs tm).creator.estimatedTokensCreated =
      (computeRiskScore mint ca txs2 hs tm).creator.estimatedTokensCreated ∧
    ((txs1.filter txLooksLikeTokenCreation).filter txLooksLikeTokenCreation).length =
      (txs1.filter txLooksLikeTokenCreation).length := by
  constructor
  · simp only [computeRiskScore]
    rw [(hperm.filter txLooksLikeTokenCreation).length_eq]
  · rw [List.filter_filter]
    simp [Bool.and_self]

/-- Witness for C6 at a concrete two-element sample and its reversal. -/
theorem estimatedTokensCreated_perm_invariant_witness :
    txsPermA.Perm txsPermB ∧
      ((computeRiskScore mintW caPlain txsPermA none none).creator.estimatedTokensCreated =
        (computeRiskScore mintW caPlain txsPermB none none).creator.estimatedTokensCreated ∧
      ((txsPermA.filter txLooksLikeTokenCreation).filter txLooksLikeTokenCreation).length =
        (txsPermA.filter txLooksLikeTokenCreation).length) :=
  ⟨by decide,
    estimatedTokensCreated_perm_invariant_and_idempotent mintW caPlain
      txsPermA txsPermB none none (by decide)⟩

/-! ## Claim C4 -/

/-- C4: evaluated on a newest-first sample in which WalletW received from
the creator at times 200 and 100, the computation records 200, the first
transfer encountered, although the earliest inbound transfer in the sample
has timestamp 100. -/
theorem getWalletsReceivedFromCreator_records_first_encountered :
    getWalletsReceivedFromCreator [txTransferNew, txTransferOld] "CreatorC" =
      [("WalletW", 200)] ∧ txTransferOld.timestamp = some 100 :=
  ⟨rfl, rfl⟩

/-! ## Rule bounds used by the scenario claim -/

/-- Rule 3 never adds more than 10. -/
theorem rule3_delta_le (c : Nat) : fireDelta (rule3TokensCreated c) ≤ 10 := by
  unfold rule3TokensCreated
  split_ifs <;> simp [fireDelta]

/-- Rule 4 never adds more than 10. -/
theorem rule4_delta_le (a : Option Rat) : fireDelta (rule4AccountAge a) ≤ 10 := by
  rcases a with _ | q
  · simp [rule4AccountAge, fireDelta]
  · unfold rule4AccountAge
    simp only
    split_ifs <;> simp [fireDelta]

/-- Rule 5 never adds to the score. -/
theorem rule5_delta_nonpos (t : Nat) : fireDelta (rule5Activity t) ≤ 0 := by
  unfold rule5Activity
  split_ifs <;> simp [fireDelta]

/-- Rule 8 never adds to the score. -/
theorem rule8_delta_nonpos (hs : Option HolderStats) :
    fireDelta (rule8ConnectedHolders hs) ≤ 0 := by
  unfold rule8ConnectedHolders
  simp only
  split_ifs <;> simp [fireDelta]

/-- Rule 10 never adds to the score. -/
theorem rule10_delta_nonpos (tm : Option TokenMarketStats) :
    fireDelta (rule10FreshHolders tm) ≤ 0 := by
  rcases tm with _ | mm
  · simp [rule10FreshHolders, fireDelta]
  · unfold rule10FreshHolders
    simp only
    split_ifs <;> simp [fireDelta]

/-- A pre-clamp value at most 0 clamps to exactly 0. -/
theorem clamp_eq_zero {S : Int} (h : 50 + S ≤ 0) :
    max 0 (min 100 (50 + S)) = 0 := by
  rw [min_eq_right (le_trans h (by norm_num))]
  exact max_eq_left h

/-- A firing with a known id contributes that id to the factor-id list of
its own block. -/
theorem fireId_mem_ids {o : Option RuleFire} {s : String}
    (h : fireId o = some s) :
    s ∈ (o.toList.map RuleFire.factor).map RiskFactor.id := by
  rcases o with _ | f
  · exact Option.noConfusion h
  · have h2 : f.factor.id = s := Option.some.inj h
    simp only [Option.toList, List.map_cons, List.map_nil, List.mem_singleton]
    exact h2.symm

/-! ## Claim C8 -/

/-- C8: with mint authority active, creator hold 0 percent, 2 holders,
top-10 concentration 100 percent and 500 USD liquidity fixed, and every
other evidence field arbitrary, the score is at most 10, the severity is
high, and the factor list contains unlimited_mint, creator_sold,
very_few_holders, extreme_concentration and low_liquidity. -/
theorem computeRiskScore_scenarioA
    (mint creatorAddress : String) (cft : Option Int) (age : Option Rat)
    (ttc etc0 : Nat) (tn tsym : Option String) (txs : List ScoreTx)
    (tsr : Nat) (thl : List TopHolderEntry)
    (cch : Option (List CreatorConnectedHolder))
    (prs : Option (List TokenPairInfo)) (tc24 b24 s24 ut : Option Nat)
    (f1 f7 : Option Rat) (ms : Option MigrationStatus) (ml : Option String) :
    (computeRiskScore mint (scenarioACreator creatorAddress cft age ttc etc0 tn tsym)
      txs (some (scenarioAHolders tsr thl cch))
      (some (scenarioAMarket prs tc24 b24 s24 ut f1 f7 ms ml))).score ≤ 10 ∧
    (computeRiskScore mint (scenarioACreator creatorAddress cft age ttc etc0 tn tsym)
      txs (some (scenarioAHolders tsr thl cch))
      (some (scenarioAMarket prs tc24 b24 s24 ut f1 f7 ms ml))).severity = .high ∧
    ["unlimited_mint", "creator_sold", "very_few_holders",
     "extreme_concentration", "low_liquidity"] ⊆
      ((computeRiskScore mint (scenarioACreator creatorAddress cft age ttc etc0 tn tsym)
        txs (some (scenarioAHolders tsr thl cch))
        (some (scenarioAMarket prs tc24 b24 s24 ut f1 f7 ms ml))).factors.map
          RiskFactor.id) := by
  have hd1 : fireDelta (rule1Emission
      (scenarioACreator creatorAddress cft age ttc etc0 tn tsym).canMintUnlimited) = -20 := rfl
  have hi1 : fireId (rule1Emission
      (scenarioACreator creatorAddress cft age ttc etc0 tn tsym).canMintUnlimited) =
      some "unlimited_mint" := rfl
  have hd2 : fireDelta (rule2CreatorHold (some (scenarioAHolders tsr thl cch))) = -18 := by
    unfold rule2CreatorHold scenarioAHolders
    dsimp only
    rw [if_pos (by norm_num : (0 : Rat) < 1)]
    rfl
  have hi2 : fireId (rule2CreatorHold (some (scenarioAHolders tsr thl cch))) =
      some "creator_sold" := by
    unfold rule2CreatorHold scenarioAHolders
    dsimp only
    rw [if_pos (by norm_num : (0 : Rat) < 1)]
    rfl
  have hd6 : fireDelta (rule6HolderCount (some (scenarioAHolders tsr thl cch))) = -18 := rfl
  have hi6 : fireId (rule6HolderCount (some (scenarioAHolders tsr thl cch))) =
      some "very_few_holders" := rfl
  have hd7 : fireDelta (rule7Concentration (some (scenarioAHolders tsr thl cch))) = -15 := by
    unfold rule7Concentration scenarioAHolders
    dsimp only
    rw [if_pos (by norm_num : (0 : Rat) ≤ 100), if_pos (by norm_num : (80 : Rat) ≤ 100)]
    rfl
  have hi7 : fireId (rule7Concentration (some (scenarioAHolders tsr thl cch))) =
      some "extreme_concentration" := by
    unfold rule7Concentration scenarioAHolders
    dsimp only
    rw [if_pos (by norm_num : (0 : Rat) ≤ 100), if_pos (by norm_num : (80 : Rat) ≤ 100)]
    rfl
  have hd9 : fireDelta (rule9Liquidity
      (some (scenarioAMarket prs tc24 b24 s24 ut f1 f7 ms ml))) = -12 := by
    unfold rule9Liquidity scenarioAMarket
    dsimp only
    rw [if_pos (by norm_num : (0 : Rat) ≤ 500), if_pos (by norm_num : (500 : Rat) < 2000)]
    rfl
  have hi9 : fireId (rule9Liquidity
      (some (scenarioAMarket prs tc24 b24 s24 ut f1 f7 ms ml))) =
      some "low_liquidity" := by
    unfold rule9Liquidity scenarioAMarket
    dsimp only
    rw [if_pos (by norm_num : (0 : Rat) ≤ 500), if_pos (by norm_num : (500 : Rat) < 2000)]
    rfl
  have hsum : ((ruleFires
      (scenarioACreator creatorAddress cft age ttc etc0 tn tsym).canMintUnlimited
      (txs.filter txLooksLikeTokenCreation).length
      (scenarioACreator creatorAddress cft age ttc etc0 tn tsym).accountAgeDays
      (scenarioACreator creatorAddress cft age ttc etc0 tn tsym).totalTxCount
      (some (scenarioAHolders tsr thl cch))
      (some (scenarioAMarket prs tc24 b24 s24 ut f1 f7 ms ml))).map
        RuleFire.delta).sum ≤ -63 := by
    rw [ruleFires_delta_sum, hd1, hd2, hd6, hd7, hd9]
    have b3 := rule3_delta_le (txs.filter txLooksLikeTokenCreation).length
    have b4 := rule4_delta_le
      (scenarioACreator creatorAddress cft age ttc etc0 tn tsym).accountAgeDays
    have b5 := rule5_delta_nonpos
      (scenarioACreator creatorAddress cft age ttc etc0 tn tsym).totalTxCount
    have b8 := rule8_delta_nonpos (some (scenarioAHolders tsr thl cch))
    have b10 := rule10_delta_nonpos (some (scenarioAMarket prs tc24 b24 s24 ut f1 f7 ms ml))
    omega
  have hscore : max 0 (min 100 (50 + ((ruleFires
      (scenarioACreator creatorAddress cft age ttc etc0 tn tsym).canMintUnlimited
      (txs.filter txLooksLikeTokenCreation).length
      (scenarioACreator creatorAddress cft age ttc etc0 tn tsym).accountAgeDays
      (scenarioACreator creatorAddress cft age ttc etc0 tn tsym).totalTxCount
      (some (scenarioAHolders tsr thl cch))
      (some (scenarioAMarket prs tc24 b24 s24 ut f1 f7 ms ml))).map
        RuleFire.delta).sum)) = 0 :=
    clamp_eq_zero (by omega)
  have m1 : "unlimited_mint" ∈ ((ruleFires
      (scenarioACreator creatorAddress cft age ttc etc0 tn tsym).canMintUnlimited
      (txs.filter txLooksLikeTokenCreation).length
      (scenarioACreator creatorAddress cft age ttc etc0 tn tsym).accountAgeDays
      (scenarioACreator creatorAddress cft age ttc etc0 tn tsym).totalTxCount
      (some (scenarioAHolders tsr thl cch))
      (some (scenarioAMarket prs tc24 b24 s24 ut f1 f7 ms ml))).map
        RuleFire.factor).map RiskFactor.id := by
    simp only [ruleFires, List.map_append]
    exact List.mem_append_left _ (List.mem_append_left _ (List.mem_append_left _
      (List.mem_append_left _ (List.mem_append_left _ (List.mem_append_left _
      (List.mem_append_left _ (List.mem_append_left _ (List.mem_append_left _
      (fireId_mem_ids hi1)))))))))
  have m2 : "creator_sold" ∈ ((ruleFires
      (scenarioACreator creatorAddress cft age ttc etc0 tn tsym).canMintUnlimited
      (txs.filter txLooksLikeTokenCreation).length
      (scenarioACreator creatorAddress cft age ttc etc0 tn tsym).accountAgeDays
      (scenarioACreator creatorAddress cft age ttc etc0 tn tsym).totalTxCount
      (some (scenarioAHolders tsr thl cch))
      (some (scenarioAMarket prs tc24 b24 s24 ut f1 f7 ms ml))).map
        RuleFire.factor).map RiskFactor.id := by
    simp only [ruleFires, List.map_append]
    exact List.mem_append_left _ (List.mem_append_left _ (List.mem_append_left _
      (List.mem_append_left _ (List.mem_append_left _ (List.mem_append_left _
      (List.mem_append_left _ (List.mem_append_left _ (List.mem_append_right _
      (fireId_mem_ids hi2)))))))))
  have m6 : "very_few_holders" ∈ ((ruleFires
      (scenarioACreator creatorAddress cft age ttc etc0 tn tsym).canMintUnlimited
      (txs.filter txLooksLikeTokenCreation).length
      (scenarioACreator creatorAddress cft age ttc etc0 tn tsym).accountAgeDays
      (scenarioACreator creatorAddress cft age ttc etc0 tn tsym).totalTxCount
      (some (scenarioAHolders tsr thl cch))
      (some (scenarioAMarket prs tc24 b24 s24 ut f1 f7 ms ml))).map
        RuleFire.factor).map RiskFactor.id := by
    simp only [ruleFires, List.map_append]
    exact List.mem_append_left _ (List.mem_append_left _ (List.mem_append_left _
      (List.mem_append_left _ (List.mem_append_right _ (fireId_mem_ids hi6)))))
  have m7 : "extreme_concentration" ∈ ((ruleFires
      (scenarioACreator creatorAddress cft age ttc etc0 tn tsym).canMintUnlimited
      (txs.filter txLooksLikeTokenCreation).length
      (scenarioACreator creatorAddress cft age ttc etc0 tn tsym).accountAgeDays
      (scenarioACreator creatorAddress cft age ttc etc0 tn tsym).totalTxCount
      (some (scenarioAHolders tsr thl cch))
      (some (scenarioAMarket prs tc24 b24 s24 ut f1 f7 ms ml))).map
        RuleFire.factor).map RiskFactor.id := by
    simp only [ruleFires, List.map_append]
    exact List.mem_append_left _ (List.mem_append_left _ (List.mem_append_left _
      (List.mem_append_right _ (fireId_mem_ids hi7))))
  have m9 : "low_liquidity" ∈ ((ruleFires
      (scenarioACreator creatorAddress cft age ttc etc0 tn tsym).canMintUnlimited
      (txs.filter txLooksLikeTokenCreation).length
      (scenarioACreator creatorAddress cft age ttc etc0 tn tsym).accountAgeDays
      (scenarioACreator creatorAddress cft age ttc etc0 tn tsym).totalTxCount
      (some (scenarioAHolders tsr thl cch))
      (some (scenarioAMarket prs tc24 b24 s24 ut f1 f7 ms ml))).map
        RuleFire.factor).map RiskFactor.id := by
    simp only [ruleFires, List.map_append]
    exact List.mem_append_left _ (List.mem_append_right _ (fireId_mem_ids hi9))
  refine ⟨?_, ?_, ?_⟩
  · simp only [computeRiskScore]
    rw [hscore]
    norm_num
  · simp only [computeRiskScore]
    rw [hscore]
    norm_num
  · simp only [computeRiskScore]
    intro s hsmem
    simp only [List.mem_cons, List.not_mem_nil, or_false] at hsmem
    rcases hsmem with rfl | rfl | rfl | rfl | rfl
    exacts [m1, m2, m6, m7, m9]

/-! ## Aggregation lemmas for the holder-distribution claim -/

/-- Looking a key up after bumping every binding of another key. -/
theorem alistGet_map_bump (m : List (String × Nat)) (k k2 : String) (v : Nat) :
    alistGet? (m.map (fun p => if p.1 == k then (p.1, p.2 + v) else p)) k2 =
      if k == k2 then (alistGet? m k2).map (fun w => w + v)
      else alistGet? m k2 := by
  induction m with
  | nil => cases hkk : (k == k2) <;> simp [alistGet?, hkk]
  | cons p rest ih =>
    have hfst : (if (p.1 == k) = true then (p.1, p.2 + v) else p).1 = p.1 := by
      split_ifs <;> rfl
    unfold alistGet? at ih ⊢
    simp only [List.map_cons]
    by_cases hp : (p.1 == k2) = true
    · rw [List.find?_cons_of_pos (p := fun q : String × Nat => q.1 == k2) _
        (show ((if (p.1 == k) = true then (p.1, p.2 + v) else p).1 == k2) = true by
          rw [hfst]; exact hp)]
      rw [List.find?_cons_of_pos (p := fun q : String × Nat => q.1 == k2) _ hp]
      by_cases hpk : (p.1 == k) = true
      · have hkk : (k == k2) = true :=
          beq_iff_eq.mpr ((eq_of_beq hpk) ▸ (eq_of_beq hp))
        rw [if_pos hkk]
        simp [hpk]
      · have hpk0 : (p.1 == k) = false := eq_false_of_ne_true hpk
        have h1 : p.1 = k2 := eq_of_beq hp
        have h2 : p.1 ≠ k := fun hc => hpk (beq_iff_eq.mpr hc)
        have hne : k ≠ k2 := fun hc => h2 (h1.trans hc.symm)
        simp [hpk0, hne]
    · rw [List.find?_cons_of_neg (p := fun q : String × Nat => q.1 == k2) _
        (show ¬ ((if (p.1 == k) = true then (p.1, p.2 + v) else p).1 == k2) = true by
          rw [hfst]; exact hp)]
      rw [List.find?_cons_of_neg (p := fun q : String × Nat => q.1 == k2) _ hp]
      exact ih

/-- The read-back equation of the accumulate-set idiom of the handler. -/
theorem mapAdd_get (m : List (String × Nat)) (k : String) (v : Nat)
    (k2 : String) :
    (alistGet? (mapAdd m k v) k2).getD 0 =
      (alistGet? m k2).getD 0 + (if k == k2 then v else 0) := by
  unfold mapAdd
  by_cases hmem : (m.any fun p => p.1 == k) = true
  · rw [if_pos hmem, alistGet_map_bump]
    by_cases hkk : (k == k2) = true
    · rw [if_pos hkk, if_pos hkk]
      obtain ⟨w, hw⟩ : ∃ w, alistGet? m k2 = some w := by
        have hk2 : k = k2 := eq_of_beq hkk
        subst hk2
        have hsome : (m.find? (fun p => p.1 == k)).isSome :=
          List.find?_isSome.mpr (List.any_eq_true.mp hmem)
        rcases ho : m.find? (fun p => p.1 == k) with _ | q
        · rw [ho] at hsome; exact Bool.noConfusion hsome
        · exact ⟨q.2, by unfold alistGet?; rw [ho]; rfl⟩
      rw [hw]
      simp
    · have hkk0 : (k == k2) = false := eq_false_of_ne_true hkk
      rw [if_neg (by simp [hkk0]), if_neg (by simp [hkk0])]
      simp
  · rw [if_neg hmem]
    have hnok : m.find? (fun p => p.1 == k) = none := by
      rw [List.find?_eq_none]
      intro p hpm hpk
      have hcontra : (m.any fun p => p.1 == k) = true :=
        List.any_eq_true.mpr ⟨p, hpm, hpk⟩
      exact hmem hcontra
    unfold alistGet?
    rw [List.find?_append]
    rcases hf : m.find? (fun p => p.1 == k2) with _ | q
    · by_cases hkk : (k == k2) = true
      · have hk2 : k = k2 := eq_of_beq hkk
        subst hk2
        simp [List.find?, hkk, hf]
      · have hkk0 : (k == k2) = false := eq_false_of_ne_true hkk
        simp [List.find?, hkk0, hf]
    · have hkk0 : (k == k2) = false := by
        rw [beq_eq_false_iff_ne]
        intro hc
        subst hc
        rw [hnok] at hf
        exact Option.noConfusion hf
      simp [hf, hkk0]

/-- The aggregated balance of a nonempty owner equals the exact integer sum
of that owner's account balances. -/
theorem aggregate_get (accounts : List TokenAccountHolder) (o : String)
    (ho : o ≠ "") :
    (alistGet? (aggregateByOwner accounts) o).getD 0 = ownerTotal o accounts := by
  suffices h : ∀ m : List (String × Nat),
      (alistGet? (accounts.foldl
        (fun m a => if a.owner = "" then m else mapAdd m a.owner a.amount) m) o).getD 0 =
      (alistGet? m o).getD 0 + ownerTotal o accounts by
    have h0 := h []
    unfold aggregateByOwner
    rw [h0]
    simp [alistGet?]
  induction accounts with
  | nil =>
    intro m
    simp [ownerTotal]
  | cons a rest ih =>
    intro m
    simp only [List.foldl_cons]
    by_cases ha : a.owner = ""
    · rw [if_pos ha, ih m]
      have haw : (a.owner == o) = false := by
        rw [beq_eq_false_iff_ne, ha]
        exact fun hc => ho hc.symm
      simp [ownerTotal, haw]
    · rw [if_neg ha, ih (mapAdd m a.owner a.amount), mapAdd_get]
      unfold ownerTotal
      cases haw : (a.owner == o)
      · simp [haw]
      · have : a.owner = o := eq_of_beq haw
        simp [haw, this]
        omega

/-- Division distributes over addition up to flooring. -/
theorem div_add_div_le (a b c : Nat) (hc : 0 < c) :
    a / c + b / c ≤ (a + b) / c := by
  rw [Nat.le_div_iff_mul_le hc]
  calc (a / c + b / c) * c = a / c * c + b / c * c := add_mul _ _ _
    _ ≤ a + b := Nat.add_le_add (Nat.div_mul_le_self a c) (Nat.div_mul_le_self b c)

/-- The floored basis-point shares never sum to more than the exact total
share. -/
theorem sum_bp_le_total (vs : List Nat) (T : Nat) (hT : 0 < T) :
    (vs.map (fun v => v * 10000 / T)).sum ≤ vs.sum * 10000 / T := by
  induction vs with
  | nil => simp
  | cons v rest ih =>
    simp only [List.map_cons, List.sum_cons]
    calc v * 10000 / T + (rest.map (fun v => v * 10000 / T)).sum
        ≤ v * 10000 / T + rest.sum * 10000 / T := Nat.add_le_add_left ih _
      _ ≤ (v * 10000 + rest.sum * 10000) / T := div_add_div_le _ _ _ hT
      _ = (v + rest.sum) * 10000 / T := by rw [add_mul]

/-- Each floored basis-point share loses less than one unit: the scaled sum
is bounded below. -/
theorem sum_bp_lower (vs : List Nat) (T : Nat) (hT : 0 < T) :
    vs.sum * 10000 ≤
      T * (vs.map (fun v => v * 10000 / T)).sum + vs.length * (T - 1) := by
  induction vs with
  | nil => simp
  | cons v rest ih =>
    simp only [List.map_cons, List.sum_cons, List.length_cons]
    have hmod : v * 10000 % T ≤ T - 1 := Nat.le_sub_one_of_lt (Nat.mod_lt _ hT)
    have hdm := Nat.div_add_mod (v * 10000) T
    have h1 : v * 10000 ≤ T * (v * 10000 / T) + (T - 1) := by omega
    have hexp : (rest.length + 1) * (T - 1) = rest.length * (T - 1) + (T - 1) := by
      ring
    calc (v + rest.sum) * 10000 = v * 10000 + rest.sum * 10000 := add_mul _ _ _
      _ ≤ (T * (v * 10000 / T) + (T - 1)) +
          (T * (rest.map (fun v => v * 10000 / T)).sum + rest.length * (T - 1)) :=
        Nat.add_le_add h1 ih
      _ = T * (v * 10000 / T + (rest.map (fun v => v * 10000 / T)).sum) +
          (rest.length + 1) * (T - 1) := by rw [mul_add, hexp]; ring

/-! ## Claim C7 -/

/-- C7: the holder aggregation merges accounts of one owner by exact
integer summation before ranking, and the basis-point shares computed by the
handler formula, summed over every distinct holder, land in the interval
from 10000 minus the holder count, exclusive, to 10000 inclusive: the total
equals 100 percent within a truncation error below 0.01 percentage points
per holder. -/
theorem holder_aggregation_merges_and_percent_sum
    (accounts : List TokenAccountHolder) (o : String) (ho : o ≠ "")
    (hT : 0 < totalSupplyOf accounts) :
    (alistGet? (aggregateByOwner accounts) o).getD 0 = ownerTotal o accounts ∧
    percentBpSum accounts ≤ 10000 ∧
    10000 < percentBpSum accounts + (sortedHolders accounts).length := by
  have hview : percentBpSum accounts =
      (((sortedHolders accounts).map (fun p => p.2)).map
        (fun v => v * 10000 / totalSupplyOf accounts)).sum := by
    unfold percentBpSum percentBp
    rw [List.map_map]
    rfl
  have hTT : ((sortedHolders accounts).map (fun p => p.2)).sum =
      totalSupplyOf accounts := rfl
  refine ⟨aggregate_get accounts o ho, ?_, ?_⟩
  · rw [hview]
    have hupper := sum_bp_le_total ((sortedHolders accounts).map (fun p => p.2))
      (totalSupplyOf accounts) hT
    rw [hTT] at hupper
    calc (((sortedHolders accounts).map (fun p => p.2)).map
          (fun v => v * 10000 / totalSupplyOf accounts)).sum
        ≤ totalSupplyOf accounts * 10000 / totalSupplyOf accounts := hupper
      _ = 10000 := Nat.mul_div_cancel_left 10000 hT
  · rw [hview]
    have hlow := sum_bp_lower ((sortedHolders accounts).map (fun p => p.2))
      (totalSupplyOf accounts) hT
    rw [hTT] at hlow
    simp only [List.length_map] at hlow
    have hn : 0 < (sortedHolders accounts).length := by
      rcases hsort : sortedHolders accounts with _ | ⟨p, rest⟩
      · exfalso
        unfold totalSupplyOf at hT
        rw [hsort] at hT
        simp at hT
      · simp
    have h2 : (sortedHolders accounts).length * (totalSupplyOf accounts - 1) <
        (sortedHolders accounts).length * totalSupplyOf accounts :=
      mul_lt_mul_of_pos_left (Nat.sub_lt hT one_pos) hn
    have h3 : totalSupplyOf accounts * 10000 <
        totalSupplyOf accounts * (((sortedHolders accounts).map (fun p => p.2)).map
          (fun v => v * 10000 / totalSupplyOf accounts)).sum +
        (sortedHolders accounts).length * totalSupplyOf accounts := by omega
    have h4 : totalSupplyOf accounts * 10000 <
        totalSupplyOf accounts * ((((sortedHolders accounts).map (fun p => p.2)).map
          (fun v => v * 10000 / totalSupplyOf accounts)).sum +
          (sortedHolders accounts).length) := by
      have hcomm : (sortedHolders accounts).length * totalSupplyOf accounts =
          totalSupplyOf accounts * (sortedHolders accounts).length := mul_comm _ _
      rw [mul_add]
      omega
    exact lt_of_mul_lt_mul_left h4 (Nat.zero_le _)

/-- Witness for C7: two accounts of owner A merge to 5, and the shares of A
and B sum to exactly 10000 basis points. -/
theorem holder_aggregation_merges_witness :
    ("A" ≠ "" ∧ 0 < totalSupplyOf accountsW) ∧
      ((alistGet? (aggregateByOwner accountsW) "A").getD 0 = ownerTotal "A" accountsW ∧
       percentBpSum accountsW ≤ 10000 ∧
       10000 < percentBpSum accountsW + (sortedHolders accountsW).length) :=
  ⟨⟨by decide, by decide⟩,
    holder_aggregation_merges_and_percent_sum accountsW "A" (by decide) (by decide)⟩

/-! ## Handler lemmas -/

/-- When validation, the mint-authority step, the creator resolution and
both creator-history fetches all succeed, the request succeeds and reports
the resolved mint-authority tri-state; every remaining call may fail. -/
theorem analyze_success_of_steps (env : Env) (c : Option Bool)
    (txs : List HeliusTransaction) (ctx : HeliusTransaction)
    (la ld : List HeliusTransaction)
    (hmv : isValidSolanaAddress (requestMint env) = true)
    (hkey : heliusKeyMissing env.apiKeyEnv = false)
    (hma : mintAuthorityStep env = .ok c)
    (hmt : env.mintTxAscRes = .ok txs)
    (htx : txs.head? = some ctx)
    (hfp : ctx.feePayer ≠ "")
    (hca : env.creatorAscRes = .ok la)
    (hcd : env.creatorDescRes = .ok ld) :
    ∃ r : RiskResult, analyzeGET env = .success r ∧
      r.creator.canMintUnlimited = c := by
  have hne : requestMint env ≠ "" := by
    intro h0
    rw [h0] at hmv
    exact absurd hmv (by decide)
  simp only [analyzeGET]
  rw [if_neg hne, if_neg (fun hcon => hcon hmv),
    if_neg (by rw [hkey]; exact Bool.false_ne_true)]
  simp only [analyzeBody]
  rw [hma, hmt]
  dsimp only
  rw [htx]
  dsimp only
  rw [if_neg hfp, hca, hcd]
  exact ⟨_, rfl, rfl⟩

/-! ## Claim C2 -/

/-- C2 counterexample: creator resolution succeeded, yet the failure of the
newest-first creator-history fetch makes the whole request fail with an
error response instead of degrading the evidence. -/
theorem creator_history_failure_fails_request :
    envDescFails.mintTxAscRes = Except.ok [txCreation] ∧
    txCreation.feePayer = "CreatorAddr" ∧
    envDescFails.creatorDescRes = Except.error "Helius API error 500: upstream" ∧
    analyzeGET envDescFails = .failure 500 "Helius API error 500: upstream" :=
  ⟨rfl, rfl, rfl, rfl⟩

/-- C2 amended: when creator resolution, both creator-history fetches and
the mint-authority step complete, the request succeeds no matter how the
holder-distribution call or any other secondary lookup behaves. -/
theorem analyze_succeeds_when_core_calls_succeed (env : Env) (c : Option Bool)
    (txs : List HeliusTransaction) (ctx : HeliusTransaction)
    (la ld : List HeliusTransaction)
    (hmv : isValidSolanaAddress (requestMint env) = true)
    (hkey : heliusKeyMissing env.apiKeyEnv = false)
    (hma : mintAuthorityStep env = .ok c)
    (hmt : env.mintTxAscRes = .ok txs)
    (htx : txs.head? = some ctx)
    (hfp : ctx.feePayer ≠ "")
    (hca : env.creatorAscRes = .ok la)
    (hcd : env.creatorDescRes = .ok ld) :
    ∃ r : RiskResult, analyzeGET env = .success r := by
  obtain ⟨r, hr, _⟩ := analyze_success_of_steps env c txs ctx la ld
    hmv hkey hma hmt htx hfp hca hcd
  exact ⟨r, hr⟩

/-- C2 amended witness: the holder-distribution call throws and the request
still succeeds. -/
theorem analyze_succeeds_when_core_calls_succeed_witness :
    envHoldersFail.tokenAccountsRes =
      Except.error "Helius getTokenAccounts error 500: boom" ∧
    ∃ r : RiskResult, analyzeGET envHoldersFail = .success r :=
  ⟨rfl, analyze_succeeds_when_core_calls_succeed envHoldersFail none
    [txCreation] txCreation [] [] (by decide) (by decide) rfl rfl rfl
    (by decide) rfl rfl⟩

/-! ## Claim C3 -/

/-- C3 counterexample: the structured metadata yields nothing and the raw
mint-account fetch throws at the network level; the request fails with an
error response instead of reporting an unknown mint-authority state. -/
theorem raw_mint_account_fetch_throw_fails_request :
    envMintAuthThrows.assetRes = Except.ok none ∧
    envMintAuthThrows.mintAuthFetch = Except.error "fetch failed" ∧
    analyzeGET envMintAuthThrows = .failure 500 "fetch failed" :=
  ⟨rfl, rfl, rfl⟩

/-- C3 amended: whenever the mint-authority determination completes, with
structured metadata preferred and the byte-10 flag of the raw account as
fallback and a graceful null becoming unknown, the analyze operation
succeeds, given working creator calls, and reports exactly that tri-state. -/
theorem analyze_reports_mint_authority_tristate (env : Env) (c : Option Bool)
    (txs : List HeliusTransaction) (ctx : HeliusTransaction)
    (la ld : List HeliusTransaction)
    (hmv : isValidSolanaAddress (requestMint env) = true)
    (hkey : heliusKeyMissing env.apiKeyEnv = false)
    (hma : mintAuthorityStep env = .ok c)
    (hmt : env.mintTxAscRes = .ok txs)
    (htx : txs.head? = some ctx)
    (hfp : ctx.feePayer ≠ "")
    (hca : env.creatorAscRes = .ok la)
    (hcd : env.creatorDescRes = .ok ld) :
    ∃ r : RiskResult, analyzeGET env = .success r ∧
      r.creator.canMintUnlimited = c :=
  analyze_success_of_steps env c txs ctx la ld hmv hkey hma hmt htx hfp hca hcd

/-- C3 amended witness: a raw account blob with flag byte 1 at offset 10
resolves to an active mint authority reported in the result. -/
theorem analyze_reports_mint_authority_tristate_witness :
    mintAuthorityStep envMintAuthSet = Except.ok (some true) ∧
    ∃ r : RiskResult, analyzeGET envMintAuthSet = .success r ∧
      r.creator.canMintUnlimited = some true :=
  ⟨rfl, analyze_reports_mint_authority_tristate envMintAuthSet (some true)
    [txCreation] txCreation [] [] (by decide) (by decide) rfl rfl rfl
    (by decide) rfl rfl⟩

/-! ## Claim C9 -/

/-- C9: when the earliest-transaction lookup of the mint returns no usable
creation transaction, either no transaction at all or one without a fee
payer, the analyze operation fails with the 404 not-found response and no
result is produced. -/
theorem analyze_404_on_empty_history (env : Env) (c : Option Bool)
    (txs : List HeliusTransaction)
    (hmv : isValidSolanaAddress (requestMint env) = true)
    (hkey : heliusKeyMissing env.apiKeyEnv = false)
    (hma : mintAuthorityStep env = .ok c)
    (hmt : env.mintTxAscRes = .ok txs)
    (hempty : txs.head? = none ∨
      ∃ ctx : HeliusTransaction, txs.head? = some ctx ∧ ctx.feePayer = "") :
    analyzeGET env = .failure 404 creatorNotFoundMsg := by
  have hne : requestMint env ≠ "" := by
    intro h0
    rw [h0] at hmv
    exact absurd hmv (by decide)
  simp only [analyzeGET]
  rw [if_neg hne, if_neg (fun hcon => hcon hmv),
    if_neg (by rw [hkey]; exact Bool.false_ne_true)]
  simp only [analyzeBody]
  rw [hma, hmt]
  dsimp only
  rcases hempty with h0 | ⟨ctx, hsome, hfpe⟩
  · rw [h0]
  · rw [hsome]
    dsimp only
    rw [if_pos hfpe]

/-- C9 witness: a mint with an empty transaction history yields the 404
response. -/
theorem analyze_404_on_empty_history_witness :
    envNoHistory.mintTxAscRes = Except.ok ([] : List HeliusTransaction) ∧
    analyzeGET envNoHistory = .failure 404 creatorNotFoundMsg :=
  ⟨rfl, analyze_404_on_empty_history envNoHistory none [] (by decide)
    (by decide) rfl rfl (Or.inl rfl)⟩
